import Mathlib

/-!
Verification of `md_to_mobile_html.py`, a batch Markdown-to-HTML pipeline:
directory scan → per-file rendering → templated page assembly → index page.

The Python functions are embedded shallowly:
* strings are Lean `String`s (Python `str` semantics are reproduced for the
  operations the script uses: `splitlines`, `strip`, `lstrip("# ")`,
  `str.startswith`, `html.escape`, `Path.stem`, string sort order);
* the filesystem is a listing of directory entries, where an entry's
  `content` is `none` when reading it would raise an `OSError`;
* the optional `markdown` engine is a parameter `Option (String → String)`
  (`none` = library absent, fallback mode);
* effects of a run are collected as a list of (path, bytes) writes into the
  output directory plus a list of printed progress lines and an exit code.
-/

namespace Md2Html

/-- Python `str.isspace` / the whitespace set stripped by `str.strip()`. -/
def pyIsSpace (c : Char) : Bool :=
  c = ' ' || c = '\t' || c = '\n' || c = '\x0b' || c = '\x0c' || c = '\r' ||
  c = '\x1c' || c = '\x1d' || c = '\x1e' || c = '\x1f' || c = '\x85' || c = '\xa0' ||
  c = ' ' || (' ' ≤ c && c ≤ ' ') ||
  c = ' ' || c = ' ' || c = ' ' || c = ' ' || c = '　'

/-- Python `str.strip()` with no argument: remove leading and trailing whitespace. -/
def pyStrip (s : String) : String :=
  String.mk (((s.data.dropWhile pyIsSpace).reverse.dropWhile pyIsSpace).reverse)

/-- Python `str.lstrip("# ")`: remove every leading `'#'` or `' '` character. -/
def pyLstripHashSpace (s : String) : String :=
  String.mk (s.data.dropWhile (fun c => c = '#' || c = ' '))

/-- Python `a.startswith(b)`: `b`'s characters are a prefix of `a`'s. -/
def pyStartsWith (s pre : String) : Bool :=
  pre.data.isPrefixOf s.data

/-- Python `s[n:]` on strings (drop the first `n` characters). -/
def pyDrop (s : String) (n : Nat) : String :=
  String.mk (s.data.drop n)

/-- The line-boundary characters recognised by Python `str.splitlines`. -/
def pyIsLineBreak (c : Char) : Bool :=
  c = '\n' || c = '\r' || c = '\x0b' || c = '\x0c' ||
  c = '\x1c' || c = '\x1d' || c = '\x1e' || c = '\x85' ||
  c = ' ' || c = ' '

/-- Worker for `pySplitlines`; `acc` is the current line, reversed. -/
def pySplitlinesAux : List Char → List Char → List String
  | [], acc => if acc.isEmpty then [] else [String.mk acc.reverse]
  | '\r' :: '\n' :: rest, acc => String.mk acc.reverse :: pySplitlinesAux rest []
  | c :: rest, acc =>
    if pyIsLineBreak c then String.mk acc.reverse :: pySplitlinesAux rest []
    else pySplitlinesAux rest (c :: acc)

/-- Python `str.splitlines()`: split at line boundaries (with `"\r\n"` counting
as a single boundary), no trailing empty line for a trailing terminator. -/
def pySplitlines (s : String) : List String :=
  pySplitlinesAux s.data []

/-- Loop body of `guess_title` (src lines 182-185): for each line, strip it;
if the stripped line starts with `"# "`, return `stripped.lstrip("# ").strip()
or default`; otherwise continue with the remaining lines. -/
def guessTitleGo (default : String) : List String → String
  | [] => default
  | l :: ls =>
    let stripped := pyStrip l
    if pyStartsWith stripped "# " then
      let r := pyStrip (pyLstripHashSpace stripped)
      if r = "" then default else r
    else guessTitleGo default ls

/-- `guess_title(text, default)` (src lines 180-186). -/
def guess_title (text default : String) : String :=
  guessTitleGo default (pySplitlines text)

/-- The Title Guesser as claim C1 words it: the first *raw* line beginning with
`"# "` wins, and only that marker and surrounding whitespace are stripped. -/
def guessTitleClaimed (text default : String) : String :=
  match (pySplitlines text).find? (fun l => pyStartsWith l "# ") with
  | some l =>
    let r := pyStrip (pyDrop l 2)
    if r = "" then default else r
  | none => default

/-- The Title Guesser as C1 must be amended to match the code: the first line
whose whitespace-stripped form begins with `"# "` wins, and the result is that
stripped form with *all* leading `'#'` and `' '` characters removed, then
whitespace-stripped; the fallback if that is empty or no line qualifies. -/
def guessTitleAmended (text default : String) : String :=
  match (pySplitlines text).find? (fun l => pyStartsWith (pyStrip l) "# ") with
  | some l =>
    let r := pyStrip (pyLstripHashSpace (pyStrip l))
    if r = "" then default else r
  | none => default

theorem guessTitleGo_eq_find (default : String) (ls : List String) :
    guessTitleGo default ls =
      (match ls.find? (fun l => pyStartsWith (pyStrip l) "# ") with
       | some l =>
         let r := pyStrip (pyLstripHashSpace (pyStrip l))
         if r = "" then default else r
       | none => default) := by
  induction ls with
  | nil => rfl
  | cons l ls ih =>
    by_cases h : pyStartsWith (pyStrip l) "# "
    · simp [guessTitleGo, List.find?, h]
    · simp [guessTitleGo, List.find?, h, ih]

/-- C1: the Title Guesser, as the claim words it (first raw line beginning
with the marker, only the marker and surrounding whitespace stripped), does not
describe `guess_title`: on `"  # A\n# #B"` the code strips each line before
testing for the marker and then strips *all* leading `'#'`/`' '` characters,
returning `"A"`, while the claimed contract returns `"#B"`. -/
theorem c1_counterexample :
    guess_title "  # A\n# #B" "d" = "A" ∧
    guessTitleClaimed "  # A\n# #B" "d" = "#B" ∧
    guess_title "  # A\n# #B" "d" ≠ guessTitleClaimed "  # A\n# #B" "d" := by
  refine ⟨by decide, by decide, by decide⟩

/-- C1 (amended): `guess_title` scans the lines in order and returns, for the
first line whose whitespace-stripped form begins with `"# "`, that stripped
form with all leading `'#'` and space characters removed and surrounding
whitespace stripped — or the fallback when that text is empty or no line
qualifies; it is a pure total function. -/
theorem c1_guess_title_amended (text default : String) :
    guess_title text default = guessTitleAmended text default := by
  unfold guess_title guessTitleAmended
  exact guessTitleGo_eq_find default (pySplitlines text)

/-- Index of the last `'.'` in a list of characters (Python `str.rfind('.')`,
as an `Option`). -/
def lastDot : List Char → Option Nat
  | [] => none
  | c :: rest =>
    match lastDot rest with
    | some i => some (i + 1)
    | none => if c = '.' then some 0 else none

/-- Python `pathlib.PurePath.stem` for a plain file name: the name without its
suffix, where a suffix exists only when the last `'.'` is neither the first
nor the last character. -/
def pyStem (name : String) : String :=
  match lastDot name.data with
  | some i => if 0 < i ∧ i + 1 < name.data.length then String.mk (name.data.take i) else name
  | none => name

/-- One character's expansion under `html.escape(s, quote=True)`. -/
def escChar (c : Char) : List Char :=
  if c = '&' then ['&', 'a', 'm', 'p', ';']
  else if c = '<' then ['&', 'l', 't', ';']
  else if c = '>' then ['&', 'g', 't', ';']
  else if c = '"' then ['&', 'q', 'u', 'o', 't', ';']
  else if c = '\x27' then ['&', '#', 'x', '2', '7', ';']
  else [c]

/-- `html.escape(s)` with the default `quote=True` (the form the script always
uses): replace `&`, `<`, `>`, `"`, `'` by their entities. The script's chained
single-character `str.replace` calls are equivalent to this character-wise
expansion because no later replacement target occurs in an earlier
replacement's output. -/
def pyHtmlEscape (s : String) : String :=
  String.mk (s.data.map escChar).flatten

/-- Decoder for the five entities `html.escape` emits, used to state the
round-trip property of claim C3: scan left to right, replacing `&amp;`,
`&lt;`, `&gt;`, `&quot;`, `&#x27;` by the characters they denote and copying
every other character unchanged. -/
def unescapeChars : List Char → List Char
  | [] => []
  | c :: rest =>
    if c = '&' then
      if ['a', 'm', 'p', ';'].isPrefixOf rest then '&' :: unescapeChars (rest.drop 4)
      else if ['l', 't', ';'].isPrefixOf rest then '<' :: unescapeChars (rest.drop 3)
      else if ['g', 't', ';'].isPrefixOf rest then '>' :: unescapeChars (rest.drop 3)
      else if ['q', 'u', 'o', 't', ';'].isPrefixOf rest then '"' :: unescapeChars (rest.drop 5)
      else if ['#', 'x', '2', '7', ';'].isPrefixOf rest then '\x27' :: unescapeChars (rest.drop 5)
      else c :: unescapeChars rest
    else c :: unescapeChars rest
  termination_by l => l.length
  decreasing_by all_goals (simp [List.length_drop]; try omega)

/-- HTML un-escaping on strings (inverse direction of claim C3). -/
def htmlUnescape (s : String) : String :=
  String.mk (unescapeChars s.data)

theorem unescapeChars_cons_ne (c : Char) (rest : List Char) (h : ¬ c = '&') :
    unescapeChars (c :: rest) = c :: unescapeChars rest := by
  rw [unescapeChars]
  simp [h]

theorem unescapeChars_escChar (c : Char) (rest : List Char) :
    unescapeChars (escChar c ++ rest) = c :: unescapeChars rest := by
  by_cases h1 : c = '&'
  · subst h1
    rw [show escChar '&' ++ rest = '&' :: ('a' :: 'm' :: 'p' :: ';' :: rest) from rfl]
    rw [unescapeChars]
    simp [List.isPrefixOf]
  · by_cases h2 : c = '<'
    · subst h2
      rw [show escChar '<' ++ rest = '&' :: ('l' :: 't' :: ';' :: rest) from rfl]
      rw [unescapeChars]
      simp [List.isPrefixOf]
    · by_cases h3 : c = '>'
      · subst h3
        rw [show escChar '>' ++ rest = '&' :: ('g' :: 't' :: ';' :: rest) from rfl]
        rw [unescapeChars]
        simp [List.isPrefixOf]
      · by_cases h4 : c = '"'
        · subst h4
          rw [show escChar '"' ++ rest = '&' :: ('q' :: 'u' :: 'o' :: 't' :: ';' :: rest) from rfl]
          rw [unescapeChars]
          simp [List.isPrefixOf]
        · by_cases h5 : c = '\x27'
          · subst h5
            rw [show escChar '\x27' ++ rest = '&' :: ('#' :: 'x' :: '2' :: '7' :: ';' :: rest) from rfl]
            rw [unescapeChars]
            simp [List.isPrefixOf]
          · have hesc : escChar c = [c] := by simp [escChar, h1, h2, h3, h4, h5]
            rw [hesc, List.singleton_append, unescapeChars_cons_ne c rest h1]

theorem unescape_escape_chars (l : List Char) :
    unescapeChars (l.map escChar).flatten = l := by
  induction l with
  | nil =>
    rw [show (List.map escChar ([] : List Char)).flatten = [] from rfl, unescapeChars]
  | cons c t ih => rw [List.map_cons, List.flatten_cons, unescapeChars_escChar, ih]

/-- `HTML_TEMPLATE` (src lines 34-172) up to the first `{title}` slot. -/
def tplA : String :=
  "<!DOCTYPE html>\n<html lang=\"zh-CN\">\n<head>\n  <meta charset=\"utf-8\" />\n  <meta name=\"viewport\" content=\"width=device-width, initial-scale=1, maximum-scale=1, viewport-fit=cover\" />\n  <title>"

/-- `HTML_TEMPLATE` between the `<title>` slot and the `<h1>` `{title}` slot. -/
def tplB : String :=
  "</title>\n  <style>\n    :root \x7b\n      color-scheme: light dark;\n      --bg: #ffffff;\n      --fg: #111111;\n      --muted: #666666;\n      --accent: #1d9bf0;\n      --border: #e0e0e0;\n    \x7d\n    @media (prefers-color-scheme: dark) \x7b\n      :root \x7b\n        --bg: #050505;\n        --fg: #f5f5f5;\n        --muted: #999999;\n        --accent: #4aa8ff;\n        --border: #333333;\n      \x7d\n    \x7d\n    * \x7b box-sizing: border-box; \x7d\n    html, body \x7b\n      margin: 0;\n      padding: 0;\n      background: var(--bg);\n      color: var(--fg);\n      font-family: -apple-system, BlinkMacSystemFont, system-ui, -system-ui, sans-serif;\n      -webkit-text-size-adjust: 100%;\n    \x7d\n    body \x7b\n      max-width: 720px;\n      margin: 0 auto;\n      padding: 12px 16px 40px;\n      line-height: 1.7;\n      font-size: 17px;\n    \x7d\n    header \x7b\n      position: sticky;\n      top: 0;\n      padding: 8px 0 10px;\n      margin: 0 0 8px;\n      background: linear-gradient(to bottom, var(--bg) 70%, color-mix(in srgb, var(--bg) 90%, transparent));\n      backdrop-filter: blur(8px);\n      border-bottom: 1px solid var(--border);\n      z-index: 10;\n    \x7d\n    h1 \x7b\n      font-size: 22px;\n      margin: 0 0 2px;\n    \x7d\n    .file-meta \x7b\n      font-size: 12px;\n      color: var(--muted);\n    \x7d\n    main \x7b\n      margin-top: 8px;\n    \x7d\n    h2 \x7b font-size: 20px; margin: 20px 0 6px; \x7d\n    h3 \x7b font-size: 18px; margin: 16px 0 4px; \x7d\n    h4, h5, h6 \x7b font-size: 16px; margin: 12px 0 4px; \x7d\n    p \x7b margin: 6px 0 10px; \x7d\n    a \x7b color: var(--accent); text-decoration: none; \x7d\n    a:hover \x7b text-decoration: underline; \x7d\n    ul, ol \x7b padding-left: 1.4em; margin: 4px 0 10px; \x7d\n    li \x7b margin: 2px 0 2px; \x7d\n    .toc \x7b list-style: none; padding-left: 0; margin: 8px 0 16px; \x7d\n    .toc li \x7b padding: 8px 10px; border-radius: 10px; border: 1px solid var(--border); margin: 6px 0; \x7d\n    .toc a \x7b display: block; \x7d\n    .toc .title \x7b font-size: 16px; font-weight: 600; \x7d\n    .toc .file-name \x7b font-size: 12px; color: var(--muted); \x7d\n    code \x7b\n      font-family: SFMono-Regular, ui-monospace, Menlo, Monaco, Consolas, \"Liberation Mono\", \"Courier New\", monospace;\n      font-size: 0.9em;\n      background: color-mix(in srgb, var(--bg) 85%, #888888);\n      padding: 1px 4px;\n      border-radius: 4px;\n    \x7d\n    pre \x7b\n      background: color-mix(in srgb, var(--bg) 92%, #777777);\n      padding: 8px 10px;\n      border-radius: 8px;\n      overflow-x: auto;\n      font-size: 0.9em;\n      line-height: 1.5;\n    \x7d\n    pre code \x7b\n      background: none;\n      padding: 0;\n    \x7d\n    blockquote \x7b\n      margin: 6px 0 10px;\n      padding: 4px 10px;\n      border-left: 3px solid var(--accent);\n      color: var(--muted);\n      background: color-mix(in srgb, var(--bg) 96%, #777777);\n      border-radius: 0 8px 8px 0;\n    \x7d\n    hr \x7b\n      border: none;\n      border-top: 1px dashed var(--border);\n      margin: 16px 0;\n    \x7d\n    img \x7b\n      max-width: 100%;\n      display: block;\n      margin: 8px auto;\n      border-radius: 8px;\n    \x7d\n    table \x7b\n      width: 100%;\n      border-collapse: collapse;\n      margin: 8px 0 12px;\n      font-size: 0.9em;\n    \x7d\n    th, td \x7b\n      border: 1px solid var(--border);\n      padding: 4px 6px;\n      text-align: left;\n    \x7d\n    th \x7b\n      background: color-mix(in srgb, var(--bg) 92%, #777777);\n    \x7d\n  </style>\n</head>\n<body>\n  <header>\n    <h1>"

/-- `HTML_TEMPLATE` between the `<h1>` slot and the `{source_name}` slot. -/
def tplC : String :=
  "</h1>\n    <div class=\"file-meta\">来自："

/-- `HTML_TEMPLATE` between the `{source_name}` slot and the `{content}` slot. -/
def tplD : String :=
  "</div>\n  </header>\n  <main>\n  "

/-- `HTML_TEMPLATE` after the `{content}` slot. -/
def tplE : String :=
  "\n  </main>\n</body>\n</html>\n"

/-- `HTML_TEMPLATE.format(title=..., source_name=..., content=...)`
(src lines 207-211, 245-249): Python `str.format` substitutes every
placeholder of the fixed template in a single pass, so it is exactly this
concatenation (`{title}` occurs twice, in `<title>` and in `<h1>`). -/
def htmlTemplateFmt (title source_name content : String) : String :=
  tplA ++ title ++ tplB ++ title ++ tplC ++ source_name ++ tplD ++ content ++ tplE

/-- `render_markdown(text)` (src lines 189-199), with the process-wide engine
configuration made explicit: `some md` is an installed `markdown` library
(an external collaborator, taken as an arbitrary function), `none` is the
fallback path that wraps the escaped raw text in a preformatted block. -/
def render_markdown (engine : Option (String → String)) (text : String) : String :=
  match engine with
  | some md => md text
  | none => "<pre style=\x27white-space: pre-wrap\x27>" ++ pyHtmlEscape text ++ "</pre>"

/-- C3: on the fallback rendering path the produced fragment is the raw text
HTML-escaped inside a `<pre>` block, and un-escaping that text content
recovers the original document text exactly. -/
theorem c3_fallback_roundtrip (text : String) :
    render_markdown none text =
      "<pre style=\x27white-space: pre-wrap\x27>" ++ pyHtmlEscape text ++ "</pre>" ∧
    htmlUnescape (pyHtmlEscape text) = text := by
  refine ⟨rfl, ?_⟩
  show String.mk (unescapeChars (text.data.map escChar).flatten) = text
  rw [unescape_escape_chars]

/-- One directory entry as the pipeline sees it: a name, whether it is a
regular file, and its text content — `none` when reading it would raise. -/
structure Entry where
  name : String
  isFile : Bool
  content : Option String
deriving DecidableEq

/-- Lexicographic comparison of character sequences by code point: Python's
`str` comparison (and `Path` comparison restricted to one directory). -/
def listLexLe : List Char → List Char → Bool
  | [], _ => true
  | _ :: _, [] => false
  | a :: as, b :: bs =>
    if a.toNat < b.toNat then true
    else if b.toNat < a.toNat then false
    else listLexLe as bs

theorem listLexLe_total : ∀ a b : List Char, listLexLe a b = true ∨ listLexLe b a = true
  | [], _ => by simp [listLexLe]
  | _ :: _, [] => by simp [listLexLe]
  | a :: as, b :: bs => by
    simp only [listLexLe]
    rcases Nat.lt_trichotomy a.toNat b.toNat with h | h | h
    · left; simp [h]
    · have h1 : ¬ a.toNat < b.toNat := by omega
      have h2 : ¬ b.toNat < a.toNat := by omega
      simpa [h1, h2] using listLexLe_total as bs
    · right; simp [h]

theorem listLexLe_trans : ∀ a b c : List Char,
    listLexLe a b = true → listLexLe b c = true → listLexLe a c = true
  | [], _, _, _, _ => by simp [listLexLe]
  | _ :: _, [], _, h1, _ => by simp [listLexLe] at h1
  | _ :: _, _ :: _, [], _, h2 => by simp [listLexLe] at h2
  | a :: as, b :: bs, c :: cs, h1, h2 => by
    simp only [listLexLe] at h1 h2 ⊢
    split_ifs at h1 h2 ⊢ <;>
      first
        | rfl
        | omega
        | exact listLexLe_trans as bs cs h1 h2

/-- Comparison used by `sorted(...)` over paths of one directory: `Path`
order restricted to a common parent is lexicographic order on the file name. -/
def nameLe (a b : Entry) : Prop := listLexLe a.name.data b.name.data = true

instance : DecidableRel nameLe := fun a b =>
  inferInstanceAs (Decidable (listLexLe a.name.data b.name.data = true))

instance : IsTotal Entry nameLe := ⟨fun a b => listLexLe_total a.name.data b.name.data⟩

instance : IsTrans Entry nameLe :=
  ⟨fun _ _ _ h1 h2 => listLexLe_trans _ _ _ h1 h2⟩

/-- Python `a.endswith(b)`. -/
def pyEndsWith (s suf : String) : Bool :=
  suf.data.isSuffixOf s.data

/-- `find_markdown_files(directory)` (src lines 175-177):
`sorted(p for p in directory.glob("*.md") if p.is_file())`. The glob pattern
`*.md` selects exactly the entries whose name ends in `".md"`
(`pathlib.Path.glob` does not special-case leading dots), `is_file()` keeps
regular files, and sorting `Path`s of one directory orders them by name. -/
def find_markdown_files (dir : List Entry) : List Entry :=
  List.insertionSort nameLe (dir.filter (fun e => e.isFile && pyEndsWith e.name ".md"))

/-- C8: file discovery returns exactly the regular files of the source
directory whose name matches `*.md` — same multiset as that filter, sorted
lexicographically by name, and membership is exactly "in the directory, a
regular file, named `*.md`". -/
theorem c8_find_markdown_files (dir : List Entry) :
    (find_markdown_files dir).Perm
      (dir.filter (fun e => e.isFile && pyEndsWith e.name ".md")) ∧
    List.Sorted nameLe (find_markdown_files dir) ∧
    ∀ e, e ∈ find_markdown_files dir ↔
      (e ∈ dir ∧ e.isFile = true ∧ pyEndsWith e.name ".md" = true) := by
  refine ⟨List.perm_insertionSort nameLe _, List.sorted_insertionSort nameLe _, fun e => ?_⟩
  unfold find_markdown_files
  rw [(List.perm_insertionSort nameLe _).mem_iff, List.mem_filter]
  simp [and_assoc]

/-- The document page built by `convert_one_file` (src lines 204-211): title
from `guess_title` with the stem as fallback, body from `render_markdown`,
assembled by `HTML_TEMPLATE.format` with title and source name HTML-escaped. -/
def page_html (engine : Option (String → String)) (name text : String) : String :=
  htmlTemplateFmt (pyHtmlEscape (guess_title text (pyStem name)))
    (pyHtmlEscape name) (render_markdown engine text)

/-- A filesystem mutation performed by the script. -/
inductive FsAct where
  | mkdirp (path : String)
  | write (path : String) (content : String)
deriving DecidableEq

/-- `convert_one_file(src, dst_dir)` (src lines 202-216) with `dst_dir` the
fixed `docs` output directory: the source is read first (line 203; an
unreadable file raises there, yielding no actions and no result), and only
then the output directory is created and the page written; returns the output
path. -/
def convert_one_file (engine : Option (String → String)) (e : Entry) :
    List FsAct × Option String :=
  match e.content with
  | none => ([], none)
  | some t =>
    ([FsAct.mkdirp "docs",
      FsAct.write ("docs/" ++ pyStem e.name ++ ".html") (page_html engine e.name t)],
     some ("docs/" ++ pyStem e.name ++ ".html"))

/-- The items collected by `build_index_page` (src lines 221-226), reading the
files in order: `(src.name, guessed title, stem + ".html")` per file; `none`
when some read raises. -/
def build_index_items : List Entry → Option (List (String × String × String))
  | [] => some []
  | e :: rest =>
    match e.content with
    | none => none
    | some t =>
      match build_index_items rest with
      | none => none
      | some items =>
        some ((e.name, guess_title t (pyStem e.name), pyStem e.name ++ ".html") :: items)

/-- One `<li>` of the table of contents (src lines 233-240): href, title and
file name are each HTML-escaped. -/
def toc_entry_html (item : String × String × String) : String :=
  "<li>" ++ "<a href=\"" ++ pyHtmlEscape item.2.2 ++ "\">" ++
  "<div class=\x27title\x27>" ++ pyHtmlEscape item.2.1 ++ "</div>" ++
  "<div class=\x27file-name\x27>" ++ pyHtmlEscape item.1 ++ "</div>" ++
  "</a>" ++ "</li>"

/-- Python `"\n".join(parts)`. -/
def joinNl : List String → String
  | [] => ""
  | [s] => s
  | s :: rest => s ++ "\n" ++ joinNl rest

/-- The index page's body fragment (src lines 228-244). -/
def index_content (items : List (String × String × String)) : String :=
  joinNl (["<section>", "<h2>目录</h2>", "<ul class=\"toc\">"]
    ++ items.map toc_entry_html ++ ["</ul>", "</section>"])

/-- The full index page (src lines 245-249): fixed site title and attribution,
both HTML-escaped, around the table-of-contents fragment. -/
def index_page_html (items : List (String × String × String)) : String :=
  htmlTemplateFmt (pyHtmlEscape "网球自学指南") (pyHtmlEscape "目录 index")
    (index_content items)

theorem escChar_mem_safe (c d : Char) (hd : d ∈ escChar c) :
    d ≠ '<' ∧ d ≠ '>' ∧ d ≠ '"' ∧ d ≠ '\x27' := by
  unfold escChar at hd
  split_ifs at hd with h1 h2 h3 h4 h5
  all_goals simp only [List.mem_cons, List.not_mem_nil, or_false] at hd
  · rcases hd with rfl | rfl | rfl | rfl | rfl <;> decide
  · rcases hd with rfl | rfl | rfl | rfl <;> decide
  · rcases hd with rfl | rfl | rfl | rfl <;> decide
  · rcases hd with rfl | rfl | rfl | rfl | rfl | rfl <;> decide
  · rcases hd with rfl | rfl | rfl | rfl | rfl | rfl <;> decide
  · subst hd
    exact ⟨h2, h3, h4, h5⟩

/-- No character of an escaped string can open a tag, close an attribute or
close a quoted context: `pyHtmlEscape` output never contains a raw `<`, `>`,
`"` or `'`. -/
theorem pyHtmlEscape_safe (s : String) :
    ∀ c ∈ (pyHtmlEscape s).data, c ≠ '<' ∧ c ≠ '>' ∧ c ≠ '"' ∧ c ≠ '\x27' := by
  intro c hc
  have : c ∈ (s.data.map escChar).flatten := hc
  rw [List.mem_flatten] at this
  obtain ⟨l, hl, hcl⟩ := this
  rw [List.mem_map] at hl
  obtain ⟨c0, _, rfl⟩ := hl
  exact escChar_mem_safe c0 c hcl

/-- C7: in every page the Page Templater assembles — a converted document page
or the index page — the title slots (both occurrences) and the
source-attribution slot hold the HTML-escaped title and attribution, while the
body fragment is inserted verbatim between the fixed template chunks; and the
escaped insertions are safe against injection (no raw `<`, `>`, `"`, `'`). -/
theorem c7_templater_escaping (engine : Option (String → String))
    (name text : String) (items : List (String × String × String)) :
    page_html engine name text =
      tplA ++ pyHtmlEscape (guess_title text (pyStem name)) ++ tplB ++
        pyHtmlEscape (guess_title text (pyStem name)) ++ tplC ++
        pyHtmlEscape name ++ tplD ++ render_markdown engine text ++ tplE ∧
    index_page_html items =
      tplA ++ pyHtmlEscape "网球自学指南" ++ tplB ++ pyHtmlEscape "网球自学指南" ++ tplC ++
        pyHtmlEscape "目录 index" ++ tplD ++ index_content items ++ tplE ∧
    (∀ s : String, ∀ c ∈ (pyHtmlEscape s).data,
      c ≠ '<' ∧ c ≠ '>' ∧ c ≠ '"' ∧ c ≠ '\x27') :=
  ⟨rfl, rfl, pyHtmlEscape_safe⟩

/-- The per-file conversion loop of `main` (src lines 269-272): convert each
discovered file in order, collecting the (output-directory-relative path,
bytes) writes and the progress lines; an unreadable file raises inside
`convert_one_file` before anything of that file is written, so the loop stops
there (`false` = the run aborts with the writes and messages made so far). -/
def convertLoop (engine : Option (String → String)) :
    List Entry → List (String × String) × List String × Bool
  | [] => ([], [], true)
  | e :: rest =>
    match e.content with
    | none => ([], [], false)
    | some t =>
      let r := convertLoop engine rest
      ((pyStem e.name ++ ".html", page_html engine e.name t) :: r.1,
       ("- " ++ e.name ++ "  ->  docs/" ++ pyStem e.name ++ ".html") :: r.2.1,
       r.2.2)

/-- The one-time advisory (src lines 258-260) printed when the `markdown`
library is not installed. -/
def advisoryMsgs (engine : Option (String → String)) : List String :=
  if engine.isNone then
    ["[提示] 未检测到 \x27markdown\x27 库，将使用简单文本模式。",
     "       可选：运行 \x27pip install markdown\x27 后，重新执行本脚本，效果更好。"]
  else []

/-- Src line 264. -/
def noFilesMsg : String := "未在当前目录找到任何 .md 文件。"

/-- Src line 267. -/
def countMsg (n : Nat) : String := "发现 " ++ toString n ++ " 个 Markdown 文件，开始转换……"

/-- Src line 276. -/
def indexMsg : String := "- 目录首页  ->  docs/index.html"

/-- Src line 278. -/
def doneMsg : String :=
  "完成！可以在 \x27docs\x27 文件夹中用浏览器或 GitHub Pages 打开这些 HTML 文件（入口为 index.html）。"

/-- `main(argv)` (src lines 257-279): advisory when the engine is missing,
discovery, the empty-input report, per-file conversion, index build, final
message. Returns the writes performed inside the output directory (paths
relative to it), the stdout lines, and the process exit status (`0` from
`raise SystemExit(main(...))` on success, `1` when an exception propagates). -/
def pyMain (engine : Option (String → String)) (top : List Entry) :
    List (String × String) × List String × Nat :=
  if (find_markdown_files top).isEmpty then
    ([], advisoryMsgs engine ++ [noFilesMsg], 0)
  else
    if (convertLoop engine (find_markdown_files top)).2.2 then
      match build_index_items (find_markdown_files top) with
      | some items =>
        ((convertLoop engine (find_markdown_files top)).1 ++
           [("index.html", index_page_html items)],
         advisoryMsgs engine ++ countMsg (find_markdown_files top).length ::
           ((convertLoop engine (find_markdown_files top)).2.1 ++ [indexMsg, doneMsg]),
         0)
      | none =>
        ((convertLoop engine (find_markdown_files top)).1,
         advisoryMsgs engine ++ countMsg (find_markdown_files top).length ::
           (convertLoop engine (find_markdown_files top)).2.1,
         1)
    else
      ((convertLoop engine (find_markdown_files top)).1,
       advisoryMsgs engine ++ countMsg (find_markdown_files top).length ::
         (convertLoop engine (find_markdown_files top)).2.1,
       1)

/-- Replay a list of (path, bytes) writes, in order, over a mapping from path
to file bytes: each write overwrites unconditionally. -/
def applyWrites (d : String → Option String) :
    List (String × String) → String → Option String
  | [] => d
  | w :: ws => applyWrites (fun p => if p = w.1 then some w.2 else d p) ws

/-- The bytes the last write to `p` in the list left there, if any. -/
def lookupLast : List (String × String) → String → Option String
  | [], _ => none
  | w :: ws, p =>
    match lookupLast ws p with
    | some c => some c
    | none => if p = w.1 then some w.2 else none

/-- The filesystem as the run sees it: the source directory's entries (the
script's own directory) and the contents of the `docs` output subdirectory. -/
structure FileSys where
  top : List Entry
  docs : String → Option String

/-- `OUTPUT_DIR.mkdir(parents=True, exist_ok=True)` as seen from the source
directory listing: the `docs` subdirectory entry appears if absent. -/
def ensure_docs (top : List Entry) : List Entry :=
  if top.any (fun e => e.name = "docs") then top else top ++ [⟨"docs", false, none⟩]

/-- A whole run of the script over a filesystem: the output directory is
created as soon as the first conversion (or the index build) writes — never
when nothing is written — and the writes land in `docs`. Returns the new
filesystem and the exit status. -/
def runMain (engine : Option (String → String)) (fs : FileSys) : FileSys × Nat :=
  let r := pyMain engine fs.top
  (⟨if r.1.isEmpty then fs.top else ensure_docs fs.top, applyWrites fs.docs r.1⟩, r.2.2)

theorem convertLoop_readable (engine : Option (String → String)) :
    ∀ mds : List Entry, (∀ e ∈ mds, e.content.isSome) →
    convertLoop engine mds =
      (mds.map (fun e => (pyStem e.name ++ ".html", page_html engine e.name (e.content.getD ""))),
       mds.map (fun e => "- " ++ e.name ++ "  ->  docs/" ++ pyStem e.name ++ ".html"),
       true)
  | [], _ => rfl
  | e :: rest, h => by
    obtain ⟨t, ht⟩ := Option.isSome_iff_exists.mp (h e (List.mem_cons_self e rest))
    have ih := convertLoop_readable engine rest (fun x hx => h x (List.mem_cons_of_mem e hx))
    simp [convertLoop, ht, ih]

theorem build_index_items_readable :
    ∀ mds : List Entry, (∀ e ∈ mds, e.content.isSome) →
    build_index_items mds =
      some (mds.map (fun e =>
        (e.name, guess_title (e.content.getD "") (pyStem e.name), pyStem e.name ++ ".html")))
  | [], _ => rfl
  | e :: rest, h => by
    obtain ⟨t, ht⟩ := Option.isSome_iff_exists.mp (h e (List.mem_cons_self e rest))
    have ih := build_index_items_readable rest (fun x hx => h x (List.mem_cons_of_mem e hx))
    simp [build_index_items, ht, ih]

theorem convertLoop_fail (engine : Option (String → String)) :
    ∀ pre : List Entry, ∀ bad : Entry, ∀ post : List Entry,
    (∀ e ∈ pre, e.content.isSome) → bad.content = none →
    convertLoop engine (pre ++ bad :: post) =
      (pre.map (fun e => (pyStem e.name ++ ".html", page_html engine e.name (e.content.getD ""))),
       pre.map (fun e => "- " ++ e.name ++ "  ->  docs/" ++ pyStem e.name ++ ".html"),
       false)
  | [], bad, post, _, hbad => by simp [convertLoop, hbad]
  | e :: pre, bad, post, h, hbad => by
    obtain ⟨t, ht⟩ := Option.isSome_iff_exists.mp (h e (List.mem_cons_self e pre))
    have ih := convertLoop_fail engine pre bad post (fun x hx => h x (List.mem_cons_of_mem e hx)) hbad
    simp [convertLoop, ht, ih]

theorem applyWrites_char : ∀ (ws : List (String × String)) (d : String → Option String) (p : String),
    applyWrites d ws p =
      (match lookupLast ws p with
       | some c => some c
       | none => d p)
  | [], _, _ => rfl
  | w :: ws, d, p => by
    simp only [applyWrites, lookupLast]
    rw [applyWrites_char ws _ p]
    cases h : lookupLast ws p with
    | some c => simp [h]
    | none => by_cases hp : p = w.1 <;> simp [h, hp]

theorem applyWrites_idem (d : String → Option String) (ws : List (String × String)) :
    applyWrites (applyWrites d ws) ws = applyWrites d ws := by
  funext p
  rw [applyWrites_char ws (applyWrites d ws) p]
  cases h : lookupLast ws p with
  | some c => rw [applyWrites_char ws d p, h]
  | none => rfl

theorem lookupLast_not_mem (ws : List (String × String)) (p : String)
    (h : p ∉ ws.map Prod.fst) : lookupLast ws p = none := by
  induction ws with
  | nil => rfl
  | cons w ws ih =>
    simp only [List.map_cons, List.mem_cons] at h
    push_neg at h
    simp [lookupLast, ih h.2, h.1]

theorem lookupLast_nodup : ∀ ws : List (String × String), (ws.map Prod.fst).Nodup →
    ∀ w ∈ ws, lookupLast ws w.1 = some w.2
  | [], _, _, hw => by cases hw
  | v :: ws, hnd, w, hw => by
    rw [List.map_cons, List.nodup_cons] at hnd
    rcases List.mem_cons.mp hw with rfl | hw2
    · simp [lookupLast, lookupLast_not_mem ws w.1 hnd.1]
    · simp [lookupLast, lookupLast_nodup ws hnd.2 w hw2]

theorem applyWrites_final (d : String → Option String) (ws : List (String × String))
    (hnd : (ws.map Prod.fst).Nodup) (w : String × String) (hw : w ∈ ws) :
    applyWrites d ws w.1 = some w.2 := by
  rw [applyWrites_char, lookupLast_nodup ws hnd w hw]

theorem find_ensure_docs (top : List Entry) :
    find_markdown_files (ensure_docs top) = find_markdown_files top := by
  unfold ensure_docs
  split
  · rfl
  · unfold find_markdown_files
    rw [List.filter_append]
    simp [List.filter]

theorem ensure_docs_idem (top : List Entry) :
    ensure_docs (ensure_docs top) = ensure_docs top := by
  by_cases h : top.any (fun e => e.name = "docs") = true
  · simp [ensure_docs, h]
  · have h2 : (top ++ [(⟨"docs", false, none⟩ : Entry)]).any (fun e => e.name = "docs") = true := by
      simp [List.any_append]
    simp [ensure_docs, h, h2]

theorem pyMain_ensure_docs (engine : Option (String → String)) (top : List Entry) :
    pyMain engine (ensure_docs top) = pyMain engine top := by
  unfold pyMain
  rw [find_ensure_docs]

theorem runMain_unfold (engine : Option (String → String)) (fs : FileSys) :
    runMain engine fs =
      (⟨if (pyMain engine fs.top).1.isEmpty then fs.top else ensure_docs fs.top,
        applyWrites fs.docs (pyMain engine fs.top).1⟩,
       (pyMain engine fs.top).2.2) := rfl

theorem str_append_cancel_right (a b t : String) (h : a ++ t = b ++ t) : a = b := by
  have hd : a.data ++ t.data = b.data ++ t.data := by
    simpa [String.data_append] using congrArg String.data h
  exact String.ext (List.append_cancel_right hd)

/-- C2: over the discovered (filtered, name-sorted) source documents, all
readable, the index builder collects exactly one table-of-contents item per
document, in the same order — so one entry per document, names in
lexicographic file-name sort order — and each item's link is the document's
base name with the `.html` extension. -/
theorem c2_index_entries (top : List Entry)
    (hread : ∀ e ∈ find_markdown_files top, e.content.isSome) :
    build_index_items (find_markdown_files top) =
      some ((find_markdown_files top).map (fun e =>
        (e.name, guess_title (e.content.getD "") (pyStem e.name), pyStem e.name ++ ".html"))) ∧
    ∀ items, build_index_items (find_markdown_files top) = some items →
      items.length = (find_markdown_files top).length ∧
      items.map Prod.fst = (find_markdown_files top).map Entry.name ∧
      List.Pairwise (fun a b : String => listLexLe a.data b.data = true) (items.map Prod.fst) ∧
      ∀ item ∈ items, item.2.2 = pyStem item.1 ++ ".html" := by
  have hbuild := build_index_items_readable (find_markdown_files top) hread
  refine ⟨hbuild, fun items hitems => ?_⟩
  rw [hbuild] at hitems
  injection hitems with hitems
  subst hitems
  refine ⟨by simp, by simp, ?_, ?_⟩
  · have hsorted : List.Pairwise nameLe (find_markdown_files top) :=
      List.sorted_insertionSort nameLe _
    rw [List.map_map, List.pairwise_map]
    exact hsorted
  · intro item hitem
    rw [List.mem_map] at hitem
    obtain ⟨e, _, rfl⟩ := hitem
    rfl

/-- C2 witness: a concrete two-file directory, discovered out of name order,
yields the two sorted index entries with their stems as links. -/
theorem c2_witness :
    build_index_items
        (find_markdown_files [⟨"b.md", true, some "x"⟩, ⟨"a.md", true, some "# T"⟩]) =
      some [("a.md", "T", "a.html"), ("b.md", "b", "b.html")] := by
  have h := c2_index_entries [⟨"b.md", true, some "x"⟩, ⟨"a.md", true, some "# T"⟩] (by decide)
  rw [h.1]
  decide

/-- C4: the claim fails on the code: a source document named `index.md`
converts to the output path `index.html`, the same path the index page is
written to — the run performs two writes to one path, so the converted page
is not at a path distinct from every other output (the index overwrites it). -/
theorem c4_counterexample :
    (pyMain none [⟨"index.md", true, some "x"⟩]).1.map Prod.fst =
      ["index.html", "index.html"] ∧
    ¬ ((pyMain none [⟨"index.md", true, some "x"⟩]).1.map Prod.fst).Nodup :=
  ⟨by decide, by decide⟩

/-- C4 (amended): when at least one document is discovered, all documents are
readable, their base names are pairwise distinct and none is `index`, the run
succeeds and writes exactly one page per document (base name + `.html`, in
discovery order) plus the single `index.html`, all paths pairwise distinct;
the index holds exactly one entry per document; and every written page —
each document's converted page in particular — survives at its own path in
the final output state. -/
theorem c4_outputs_amended (engine : Option (String → String)) (top : List Entry)
    (hne : find_markdown_files top ≠ [])
    (hread : ∀ e ∈ find_markdown_files top, e.content.isSome)
    (hnd : ((find_markdown_files top).map (fun e => pyStem e.name)).Nodup)
    (hidx : "index" ∉ (find_markdown_files top).map (fun e => pyStem e.name)) :
    (pyMain engine top).2.2 = 0 ∧
    (pyMain engine top).1.map Prod.fst =
      (find_markdown_files top).map (fun e => pyStem e.name ++ ".html") ++ ["index.html"] ∧
    ((pyMain engine top).1.map Prod.fst).Nodup ∧
    (∃ items, build_index_items (find_markdown_files top) = some items ∧
      items.length = (find_markdown_files top).length) ∧
    ∀ d : String → Option String, ∀ w ∈ (pyMain engine top).1,
      applyWrites d (pyMain engine top).1 w.1 = some w.2 := by
  have hloop := convertLoop_readable engine (find_markdown_files top) hread
  have hbuild := build_index_items_readable (find_markdown_files top) hread
  have hempty : (find_markdown_files top).isEmpty = false := by
    cases hfm : find_markdown_files top with
    | nil => exact absurd hfm hne
    | cons a l => rfl
  have hmain : pyMain engine top =
      ((find_markdown_files top).map (fun e =>
          (pyStem e.name ++ ".html", page_html engine e.name (e.content.getD ""))) ++
        [("index.html", index_page_html ((find_markdown_files top).map (fun e =>
          (e.name, guess_title (e.content.getD "") (pyStem e.name), pyStem e.name ++ ".html"))))],
       advisoryMsgs engine ++ countMsg (find_markdown_files top).length ::
         ((find_markdown_files top).map
            (fun e => "- " ++ e.name ++ "  ->  docs/" ++ pyStem e.name ++ ".html") ++
          [indexMsg, doneMsg]),
       0) := by
    unfold pyMain
    rw [hempty, hloop, hbuild]
    simp
  have hpaths : (pyMain engine top).1.map Prod.fst =
      (find_markdown_files top).map (fun e => pyStem e.name ++ ".html") ++ ["index.html"] := by
    rw [hmain]
    simp
  have hinj : Function.Injective (fun s : String => s ++ ".html") :=
    fun a b hab => str_append_cancel_right a b ".html" hab
  have hndpaths : ((pyMain engine top).1.map Prod.fst).Nodup := by
    rw [hpaths]
    rw [List.nodup_append]
    refine ⟨?_, by simp, ?_⟩
    · have hcomp : (find_markdown_files top).map (fun e => pyStem e.name ++ ".html") =
          ((find_markdown_files top).map (fun e => pyStem e.name)).map
            (fun s => s ++ ".html") := by
        rw [List.map_map]
        rfl
      rw [hcomp]
      exact hnd.map hinj
    · intro p hp hq
      simp only [List.mem_singleton] at hq
      subst hq
      rw [List.mem_map] at hp
      obtain ⟨e, he, hpe⟩ := hp
      have hstem : pyStem e.name = "index" :=
        hinj (by simpa using hpe)
      exact hidx (List.mem_map.mpr ⟨e, he, hstem⟩)
  refine ⟨by rw [hmain], hpaths, hndpaths, ⟨_, hbuild, by simp⟩, ?_⟩
  intro d w hw
  exact applyWrites_final d _ hndpaths w hw

/-- C4 witness: a one-document directory produces its page plus the index,
at the two distinct paths. -/
theorem c4_witness :
    (pyMain none [⟨"a.md", true, some "hi"⟩]).1.map Prod.fst = ["a.html", "index.html"] := by
  have h := c4_outputs_amended none [⟨"a.md", true, some "hi"⟩]
    (by decide) (by decide) (by decide) (by decide)
  rw [h.2.1]
  decide

/-- C5: when the discovered list splits as `pre ++ bad :: post` with every
file of `pre` readable and `bad` unreadable, the read of `bad` raises, the
error is not caught: the run's writes are exactly the converted pages of
`pre` — no later file is converted and the index page is never written — and
the process exits with status 1. -/
theorem c5_unreadable_aborts (engine : Option (String → String)) (top : List Entry)
    (pre : List Entry) (bad : Entry) (post : List Entry)
    (hsplit : find_markdown_files top = pre ++ bad :: post)
    (hpre : ∀ e ∈ pre, e.content.isSome)
    (hbad : bad.content = none) :
    (pyMain engine top).1 =
      pre.map (fun e => (pyStem e.name ++ ".html", page_html engine e.name (e.content.getD ""))) ∧
    (pyMain engine top).2.2 = 1 := by
  have hloop := convertLoop_fail engine pre bad post hpre hbad
  have hempty : (pre ++ bad :: post).isEmpty = false := by
    cases pre <;> rfl
  constructor <;>
    · unfold pyMain
      rw [hsplit, hempty, hloop]
      simp

/-- C5 witness: `a.md` readable, `b.md` unreadable — the run writes only
`a.html` and exits 1. -/
theorem c5_witness :
    (pyMain none [⟨"b.md", true, none⟩, ⟨"a.md", true, some "x"⟩]).1.map Prod.fst =
      ["a.html"] ∧
    (pyMain none [⟨"b.md", true, none⟩, ⟨"a.md", true, some "x"⟩]).2.2 = 1 := by
  have h := c5_unreadable_aborts none [⟨"b.md", true, none⟩, ⟨"a.md", true, some "x"⟩]
    [⟨"a.md", true, some "x"⟩] ⟨"b.md", true, none⟩ [] (by decide) (by decide) (by decide)
  refine ⟨?_, h.2⟩
  rw [h.1]
  decide

/-- C6: with zero Markdown files discovered, the run prints the advisory (in
fallback mode) and the "no files found" report, exits with status 0, performs
no write at all, and leaves the filesystem — including the absent output
directory — exactly as it was. -/
theorem c6_empty_input (engine : Option (String → String)) (fs : FileSys)
    (h : find_markdown_files fs.top = []) :
    pyMain engine fs.top = ([], advisoryMsgs engine ++ [noFilesMsg], 0) ∧
    runMain engine fs = (fs, 0) := by
  have h1 : pyMain engine fs.top = ([], advisoryMsgs engine ++ [noFilesMsg], 0) := by
    unfold pyMain
    rw [h]
    simp
  refine ⟨h1, ?_⟩
  rw [runMain_unfold, h1]
  rfl

/-- C6 witness: a directory holding only a `.txt` file: successful no-op run. -/
theorem c6_witness :
    runMain none ⟨[⟨"a.txt", true, some "x"⟩], fun _ => none⟩ =
      (⟨[⟨"a.txt", true, some "x"⟩], fun _ => none⟩, 0) := by
  have h := c6_empty_input none ⟨[⟨"a.txt", true, some "x"⟩], fun _ => none⟩ (by decide)
  exact h.2

/-- C9: a successful run is idempotent. The first run changes only the output
directory (plus creating its entry), which discovery ignores, so a second run
over the resulting filesystem performs *the same* `pyMain` — the same bytes
written to the same paths, the same report, exit 0 — and leaves the
filesystem exactly as the first run left it. -/
theorem c9_idempotent (engine : Option (String → String)) (fs : FileSys)
    (h : (runMain engine fs).2 = 0) :
    pyMain engine ((runMain engine fs).1).top = pyMain engine fs.top ∧
    runMain engine ((runMain engine fs).1) = ((runMain engine fs).1, 0) := by
  have hmain : pyMain engine ((runMain engine fs).1).top = pyMain engine fs.top := by
    rw [runMain_unfold]
    by_cases hw : (pyMain engine fs.top).1.isEmpty
    · simp only [hw, if_true]
    · simp only [hw, if_false]
      exact pyMain_ensure_docs engine fs.top
  have hcode : (pyMain engine fs.top).2.2 = 0 := h
  refine ⟨hmain, ?_⟩
  rw [runMain_unfold engine ((runMain engine fs).1), hmain]
  rw [runMain_unfold engine fs]
  by_cases hw : (pyMain engine fs.top).1.isEmpty
  · simp [hw, applyWrites_idem, hcode]
  · simp [hw, applyWrites_idem, hcode, ensure_docs_idem]

/-- C9 witness: one readable document, fallback mode: the first run exits 0
and the second run's `pyMain` coincides with the first's. -/
theorem c9_witness :
    pyMain none ((runMain none ⟨[⟨"a.md", true, some "hi"⟩], fun _ => none⟩).1).top =
      pyMain none [⟨"a.md", true, some "hi"⟩] := by
  have h := c9_idempotent none ⟨[⟨"a.md", true, some "hi"⟩], fun _ => none⟩ (by decide)
  exact h.1

/-- C10: conversion of one file reads before it mutates: on an unreadable
source, `convert_one_file` raises having performed no filesystem action and
produced no output path; and when such a file is the first discovered one,
the whole run leaves the filesystem untouched — no output directory created,
nothing written, exit status 1. -/
theorem c10_read_failure_atomic (engine : Option (String → String)) (e : Entry)
    (he : e.content = none) :
    convert_one_file engine e = ([], none) ∧
    ∀ fs : FileSys, ∀ rest : List Entry, find_markdown_files fs.top = e :: rest →
      runMain engine fs = (fs, 1) := by
  constructor
  · simp [convert_one_file, he]
  · intro fs rest hf
    have hloop : convertLoop engine (e :: rest) = ([], [], false) := by
      simp [convertLoop, he]
    have h1 : (pyMain engine fs.top).1 = [] ∧ (pyMain engine fs.top).2.2 = 1 := by
      constructor <;>
        · unfold pyMain
          rw [hf, hloop]
          simp
    rw [runMain_unfold, h1.1, h1.2]
    rfl

/-- C10 witness: a single unreadable `a.md` — the run mutates nothing and
exits 1. -/
theorem c10_witness :
    runMain none ⟨[⟨"a.md", true, none⟩], fun _ => none⟩ =
      (⟨[⟨"a.md", true, none⟩], fun _ => none⟩, 1) := by
  have h := c10_read_failure_atomic none ⟨"a.md", true, none⟩ rfl
  exact h.2 ⟨[⟨"a.md", true, none⟩], fun _ => none⟩ [] (by decide)

end Md2Html
